import Mathlib

/-!
Verification of `dwb_plugins::KinematicParameters`
(src/nav2_dwb_controller/dwb_plugins/src/kinematic_parameters.cpp).

The component is a plain record of scalar limits together with
  * a default constructor zeroing every field,
  * `initialize` (deprecated-name migration and deceleration defaulting on
    the parameter store),
  * `reconfigureCB` (batch update of every field, with the squared caches
    recomputed), and
  * the pure admissibility predicate `isValidSpeed`.

Doubles are embedded as `ℚ`: every operation the code performs on them
(two multiplications, one addition, `fabs`, order comparisons and exact
equality) is exact-value arithmetic here, which decides each comparison
the same way as the C++ on the values the claims are about.  For the
claims about NaN a second value type `DVal` adjoins a NaN element with
the IEEE-754 comparison rules (every comparison with NaN is false) and
the predicate is transcribed over it as `isValidSpeedD`.
-/

namespace DwbPlugins

/-- The fields of `KinematicParameters` (kinematic_parameters.hpp / .cpp),
in declaration order of the constructor's initializer list. -/
structure KinematicParameters where
  min_vel_x_ : ℚ
  min_vel_y_ : ℚ
  max_vel_x_ : ℚ
  max_vel_y_ : ℚ
  max_vel_theta_ : ℚ
  min_speed_xy_ : ℚ
  max_speed_xy_ : ℚ
  min_speed_theta_ : ℚ
  acc_lim_x_ : ℚ
  acc_lim_y_ : ℚ
  acc_lim_theta_ : ℚ
  decel_lim_x_ : ℚ
  decel_lim_y_ : ℚ
  decel_lim_theta_ : ℚ
  min_speed_xy_sq_ : ℚ
  max_speed_xy_sq_ : ℚ
deriving DecidableEq, Repr

/-- Constructor `KinematicParameters::KinematicParameters()`: every field is
initialized to `0.0`. -/
def ctorKinematicParameters : KinematicParameters :=
  { min_vel_x_ := 0, min_vel_y_ := 0, max_vel_x_ := 0, max_vel_y_ := 0,
    max_vel_theta_ := 0,
    min_speed_xy_ := 0, max_speed_xy_ := 0, min_speed_theta_ := 0,
    acc_lim_x_ := 0, acc_lim_y_ := 0, acc_lim_theta_ := 0,
    decel_lim_x_ := 0, decel_lim_y_ := 0, decel_lim_theta_ := 0,
    min_speed_xy_sq_ := 0, max_speed_xy_sq_ := 0 }

/-- Predicate `KinematicParameters::isValidSpeed(double x, double y, double theta)`,
with the local `vmag_sq = x * x + y * y` inlined:

    if (max_speed_xy_ >= 0.0 && vmag_sq > max_speed_xy_sq_) return false;
    if (min_speed_xy_ >= 0.0 && vmag_sq < min_speed_xy_sq_ &&
        min_speed_theta_ >= 0.0 && fabs(theta) < min_speed_theta_) return false;
    if (vmag_sq == 0.0 && theta == 0.0) return false;
    return true;
-/
def isValidSpeed (p : KinematicParameters) (x y theta : ℚ) : Bool :=
  if p.max_speed_xy_ ≥ 0 ∧ x * x + y * y > p.max_speed_xy_sq_ then false
  else if p.min_speed_xy_ ≥ 0 ∧ x * x + y * y < p.min_speed_xy_sq_ ∧
      p.min_speed_theta_ ≥ 0 ∧ |theta| < p.min_speed_theta_ then false
  else if x * x + y * y = 0 ∧ theta = 0 then false
  else true

/-- Variant of `isValidSpeed` with the first rejection check (the `max_speed_xy_`
upper bound, line 133) removed; used to state that a disabled bound is
never the cause of rejection. -/
def isValidSpeedNoMaxCheck (p : KinematicParameters) (x y theta : ℚ) : Bool :=
  if p.min_speed_xy_ ≥ 0 ∧ x * x + y * y < p.min_speed_xy_sq_ ∧
      p.min_speed_theta_ ≥ 0 ∧ |theta| < p.min_speed_theta_ then false
  else if x * x + y * y = 0 ∧ theta = 0 then false
  else true

/-- Variant of `isValidSpeed` with the second rejection check (the combined
`min_speed_xy_` / `min_speed_theta_` floor, lines 135-136) removed. -/
def isValidSpeedNoMinCheck (p : KinematicParameters) (x y theta : ℚ) : Bool :=
  if p.max_speed_xy_ ≥ 0 ∧ x * x + y * y > p.max_speed_xy_sq_ then false
  else if x * x + y * y = 0 ∧ theta = 0 then false
  else true

/-- The scenario state of the spec: `max_speed_xy = 1.0` (sq `1.0`),
`min_speed_xy = 0.2` (sq `0.04`), `min_speed_theta = 0.1`, every other
limit left at the constructed value. -/
def kpScenario : KinematicParameters :=
  { ctorKinematicParameters with
    max_speed_xy_ := 1, max_speed_xy_sq_ := 1,
    min_speed_xy_ := 1/5, min_speed_xy_sq_ := 1/25,
    min_speed_theta_ := 1/10 }

/-- The batch of parameter values carried by one dynamic-parameter event:
for each of the fourteen names registered in `initialize`, either the
current value (`some v`) or absence from the event (`none`). -/
structure ParamBatch where
  min_vel_x : Option ℚ
  min_vel_y : Option ℚ
  max_vel_x : Option ℚ
  max_vel_y : Option ℚ
  max_vel_theta : Option ℚ
  min_speed_xy : Option ℚ
  max_speed_xy : Option ℚ
  min_speed_theta : Option ℚ
  acc_lim_x : Option ℚ
  acc_lim_y : Option ℚ
  acc_lim_theta : Option ℚ
  decel_lim_x : Option ℚ
  decel_lim_y : Option ℚ
  decel_lim_theta : Option ℚ
deriving DecidableEq, Repr

/-- Modelled from the spec: `DynamicParamsClient::get_event_param_or`
(nav2_dynamic_params, not under src/) assigns the event's value for the
named parameter to the field, "with default `0.0` if the field is
unexpectedly absent from the batch". -/
def getEventParamOr (v : Option ℚ) (default_value : ℚ) : ℚ :=
  v.getD default_value

/-- Update `KinematicParameters::reconfigureCB()`: one `UPDATE_PARAMETER` per
field, in source order, with `min_speed_xy_sq_` and `max_speed_xy_sq_`
recomputed right after `min_speed_xy_` and `max_speed_xy_` are set
(lines 117-120).  Every field of the state is overwritten, so the result
depends only on the batch. -/
def reconfigureCB (b : ParamBatch) : KinematicParameters :=
  let min_speed_xy_v := getEventParamOr b.min_speed_xy 0
  let max_speed_xy_v := getEventParamOr b.max_speed_xy 0
  { min_vel_x_ := getEventParamOr b.min_vel_x 0
    min_vel_y_ := getEventParamOr b.min_vel_y 0
    max_vel_x_ := getEventParamOr b.max_vel_x 0
    max_vel_y_ := getEventParamOr b.max_vel_y 0
    max_vel_theta_ := getEventParamOr b.max_vel_theta 0
    min_speed_xy_ := min_speed_xy_v
    max_speed_xy_ := max_speed_xy_v
    min_speed_xy_sq_ := min_speed_xy_v * min_speed_xy_v
    max_speed_xy_sq_ := max_speed_xy_v * max_speed_xy_v
    min_speed_theta_ := getEventParamOr b.min_speed_theta 0
    acc_lim_x_ := getEventParamOr b.acc_lim_x 0
    acc_lim_y_ := getEventParamOr b.acc_lim_y 0
    acc_lim_theta_ := getEventParamOr b.acc_lim_theta 0
    decel_lim_x_ := getEventParamOr b.decel_lim_x 0
    decel_lim_y_ := getEventParamOr b.decel_lim_y 0
    decel_lim_theta_ := getEventParamOr b.decel_lim_theta 0 }

/-- The node's parameter store as seen by `initialize`: for each name a
value when the parameter is set.  Only the names `initialize` touches are
modelled (the four renamed pairs and the acceleration/deceleration
limits). -/
structure ParamStore where
  max_vel_theta : Option ℚ
  max_rot_vel : Option ℚ
  min_speed_xy : Option ℚ
  min_trans_vel : Option ℚ
  max_speed_xy : Option ℚ
  max_trans_vel : Option ℚ
  min_speed_theta : Option ℚ
  min_rot_vel : Option ℚ
  acc_lim_x : Option ℚ
  acc_lim_y : Option ℚ
  acc_lim_theta : Option ℚ
  decel_lim_x : Option ℚ
  decel_lim_y : Option ℚ
  decel_lim_theta : Option ℚ
deriving DecidableEq, Repr

/-- Modelled from the spec: `nav_2d_utils::moveDeprecatedParameter`
(nav_2d_utils/parameters.hpp, not under src/) maps a deprecated key onto
the current name; "if both old and new are present, new wins".  Returns
the value the current name holds afterwards. -/
def moveDeprecatedParameter (current old : Option ℚ) : Option ℚ :=
  match current with
  | some v => some v
  | none => old

/-- Helper `setDecelerationAsNeeded` (lines 52-63): if the deceleration
parameter for the dimension is already set, return (leave the store
unchanged); otherwise, if the acceleration parameter is not set, return;
otherwise set the deceleration parameter to the negated acceleration.
Returns the value the deceleration parameter holds afterwards. -/
def setDecelerationAsNeeded (decel acc : Option ℚ) : Option ℚ :=
  match decel with
  | some temp => some temp
  | none =>
    match acc with
    | none => none
    | some accel => some (-accel)

/-- The effect of `KinematicParameters::initialize` on the parameter
store: the four `moveDeprecatedParameter` calls followed by the three
`setDecelerationAsNeeded` calls (lines 75-87).  The dynamic-parameter
registration that follows does not change any value. -/
def initializeStore (s : ParamStore) : ParamStore :=
  { s with
    max_vel_theta := moveDeprecatedParameter s.max_vel_theta s.max_rot_vel
    min_speed_xy := moveDeprecatedParameter s.min_speed_xy s.min_trans_vel
    max_speed_xy := moveDeprecatedParameter s.max_speed_xy s.max_trans_vel
    min_speed_theta := moveDeprecatedParameter s.min_speed_theta s.min_rot_vel
    decel_lim_x := setDecelerationAsNeeded s.decel_lim_x s.acc_lim_x
    decel_lim_y := setDecelerationAsNeeded s.decel_lim_y s.acc_lim_y
    decel_lim_theta := setDecelerationAsNeeded s.decel_lim_theta s.acc_lim_theta }

/-- An IEEE-754 double restricted to the values this code can meet:
either a finite (here: rational) value or NaN.  Infinities never arise in
the claims and are not modelled. -/
inductive DVal where
  | nan : DVal
  | fin : ℚ → DVal
deriving DecidableEq, Repr

/-- IEEE multiplication restricted to finite-or-NaN: NaN propagates. -/
def DVal.mul : DVal → DVal → DVal
  | fin a, fin b => fin (a * b)
  | _, _ => nan

/-- IEEE addition restricted to finite-or-NaN: NaN propagates. -/
def DVal.add : DVal → DVal → DVal
  | fin a, fin b => fin (a + b)
  | _, _ => nan

/-- Absolute value `fabs`: NaN stays NaN. -/
def DVal.fabs : DVal → DVal
  | fin a => fin |a|
  | nan => nan

/-- IEEE `<`: false whenever either operand is NaN. -/
def DVal.ltb : DVal → DVal → Bool
  | fin a, fin b => decide (a < b)
  | _, _ => false

/-- IEEE `>`: false whenever either operand is NaN. -/
def DVal.gtb : DVal → DVal → Bool
  | fin a, fin b => decide (b < a)
  | _, _ => false

/-- IEEE `==`: false whenever either operand is NaN. -/
def DVal.eqb : DVal → DVal → Bool
  | fin a, fin b => decide (a = b)
  | _, _ => false

/-- Predicate `isValidSpeed` transcribed over NaN-carrying inputs, with the same
short-circuit structure; the limits themselves come from parameters and
stay finite. -/
def isValidSpeedD (p : KinematicParameters) (x y theta : DVal) : Bool :=
  let vmag_sq := (x.mul x).add (y.mul y)
  if decide (p.max_speed_xy_ ≥ 0) && vmag_sq.gtb (DVal.fin p.max_speed_xy_sq_) then false
  else if decide (p.min_speed_xy_ ≥ 0) && vmag_sq.ltb (DVal.fin p.min_speed_xy_sq_) &&
      decide (p.min_speed_theta_ ≥ 0) && theta.fabs.ltb (DVal.fin p.min_speed_theta_) then false
  else if vmag_sq.eqb (DVal.fin 0) && theta.eqb (DVal.fin 0) then false
  else true

/-- A state whose `max_speed_xy_` holds the negative "disabled" sentinel. -/
def kpDisabledMax : KinematicParameters :=
  { kpScenario with max_speed_xy_ := -1 }

/-- A state whose `min_speed_xy_` holds the negative "disabled" sentinel. -/
def kpDisabledMin : KinematicParameters :=
  { kpScenario with min_speed_xy_ := -1 }

/-- A state whose `min_speed_theta_` holds the negative "disabled"
sentinel. -/
def kpDisabledMinTheta : KinematicParameters :=
  { kpScenario with min_speed_theta_ := -1 }

/-- A state agreeing with `kpScenario` on the five fields `isValidSpeed`
reads and differing in per-axis velocity and acceleration limits. -/
def kpScenarioOtherFields : KinematicParameters :=
  { kpScenario with
    min_vel_x_ := 9, min_vel_y_ := -9, max_vel_x_ := 7, max_vel_y_ := 7,
    max_vel_theta_ := 3,
    acc_lim_x_ := 2, acc_lim_y_ := 2, acc_lim_theta_ := 4,
    decel_lim_x_ := -2, decel_lim_y_ := -2, decel_lim_theta_ := -4 }

/-- A parameter store with `acc_lim_x = 2.0` and no `decel_lim_x`, a
configured `decel_lim_y = -5.0` next to `acc_lim_y = 3.0`, and
`acc_lim_theta = 1.0` with no `decel_lim_theta`. -/
def psInit : ParamStore :=
  { max_vel_theta := none, max_rot_vel := none,
    min_speed_xy := none, min_trans_vel := none,
    max_speed_xy := none, max_trans_vel := none,
    min_speed_theta := none, min_rot_vel := none,
    acc_lim_x := some 2, acc_lim_y := some 3, acc_lim_theta := some 1,
    decel_lim_x := none, decel_lim_y := some (-5), decel_lim_theta := none }

/-- A parameter event carrying only `acc_lim_x` (no `decel_lim_x`). -/
def batchAccOnly : ParamBatch :=
  { min_vel_x := none, min_vel_y := none, max_vel_x := none,
    max_vel_y := none, max_vel_theta := none,
    min_speed_xy := none, max_speed_xy := none, min_speed_theta := none,
    acc_lim_x := some 2, acc_lim_y := none, acc_lim_theta := none,
    decel_lim_x := none, decel_lim_y := none, decel_lim_theta := none }

/-- Claim C2: in every state with `max_speed_xy_ >= 0`, any input whose
squared planar speed exceeds `max_speed_xy_sq_` is rejected, for every
value of `theta`. -/
theorem max_speed_rejects (p : KinematicParameters) (x y theta : ℚ)
    (hmax : p.max_speed_xy_ ≥ 0) (hsq : x * x + y * y > p.max_speed_xy_sq_) :
    isValidSpeed p x y theta = false := by
  unfold isValidSpeed
  rw [if_pos ⟨hmax, hsq⟩]

/-- Claim C2, witness: in the scenario state, the command `(2, 0, 0)` has
squared planar speed `4 > 1` and is rejected. -/
theorem max_speed_rejects_witness : isValidSpeed kpScenario 2 0 0 = false :=
  max_speed_rejects kpScenario 2 0 0
    (by norm_num [kpScenario, ctorKinematicParameters])
    (by norm_num [kpScenario, ctorKinematicParameters])

/-- Claim C3: in every state, a command that is exactly zero in both
translation (`x*x + y*y == 0.0`) and rotation (`theta == 0.0`) is
rejected. -/
theorem zero_command_rejected (p : KinematicParameters) (x y theta : ℚ)
    (hv : x * x + y * y = 0) (ht : theta = 0) :
    isValidSpeed p x y theta = false := by
  unfold isValidSpeed
  split_ifs with h1 h2 h3
  · rfl
  · rfl
  · rfl
  · exact absurd ⟨hv, ht⟩ h3

/-- Claim C3, witness: the default-constructed state rejects `(0, 0, 0)`. -/
theorem zero_command_rejected_witness :
    isValidSpeed ctorKinematicParameters 0 0 0 = false :=
  zero_command_rejected ctorKinematicParameters 0 0 0 (by norm_num) rfl

/-- Claim C1: in every state, (a) if the lower planar-speed bound is
enabled, the squared planar speed is below `min_speed_xy_sq_`, the
rotational floor is enabled, and `|theta|` is below `min_speed_theta_`,
the command is rejected; (b) if the translational speed meets its floor
or the rotational speed meets its floor, the floor check alone does not
cause rejection: the predicate agrees with the predicate without the
floor check. -/
theorem min_floor_check (p : KinematicParameters) (x y theta : ℚ) :
    (p.min_speed_xy_ ≥ 0 → x * x + y * y < p.min_speed_xy_sq_ →
      p.min_speed_theta_ ≥ 0 → |theta| < p.min_speed_theta_ →
      isValidSpeed p x y theta = false) ∧
    (x * x + y * y ≥ p.min_speed_xy_sq_ ∨ |theta| ≥ p.min_speed_theta_ →
      isValidSpeed p x y theta = isValidSpeedNoMinCheck p x y theta) := by
  constructor
  · intro h1 h2 h3 h4
    unfold isValidSpeed
    split_ifs with hA hB hC <;>
      first | rfl | exact absurd ⟨h1, h2, h3, h4⟩ hB
  · intro h
    have hnot : ¬(p.min_speed_xy_ ≥ 0 ∧ x * x + y * y < p.min_speed_xy_sq_ ∧
        p.min_speed_theta_ ≥ 0 ∧ |theta| < p.min_speed_theta_) := by
      rcases h with h | h
      · rintro ⟨-, h2, -, -⟩
        exact absurd h2 (not_lt.mpr h)
      · rintro ⟨-, -, -, h4⟩
        exact absurd h4 (not_lt.mpr h)
    unfold isValidSpeed isValidSpeedNoMinCheck
    rw [if_neg hnot]

/-- Claim C1, witness: in the scenario state, `(0.05, 0, 0.05)` is below
both floors and rejected; for `(0.05, 0, 0.2)` the rotational floor is
met and the predicate agrees with the predicate without the floor
check. -/
theorem min_floor_check_witness :
    isValidSpeed kpScenario (1/20) 0 (1/20) = false ∧
    isValidSpeed kpScenario (1/20) 0 (1/5) =
      isValidSpeedNoMinCheck kpScenario (1/20) 0 (1/5) :=
  ⟨(min_floor_check kpScenario (1/20) 0 (1/20)).1
      (by norm_num [kpScenario, ctorKinematicParameters])
      (by norm_num [kpScenario, ctorKinematicParameters])
      (by norm_num [kpScenario, ctorKinematicParameters])
      (by norm_num [kpScenario, ctorKinematicParameters, abs_of_nonneg]),
   (min_floor_check kpScenario (1/20) 0 (1/5)).2
      (Or.inr (by norm_num [kpScenario, ctorKinematicParameters, abs_of_nonneg]))⟩

/-- Claim C7: in the scenario state (`max_speed_xy = 1.0`,
`min_speed_xy = 0.2`, `min_speed_theta = 0.1`), the command
`(0.05, 0, 0.05)` is rejected, `(0.05, 0, 0.2)` is accepted, and
`(0.9, 0.9, 0)` is rejected. -/
theorem scenario_queries :
    isValidSpeed kpScenario (1/20) 0 (1/20) = false ∧
    isValidSpeed kpScenario (1/20) 0 (1/5) = true ∧
    isValidSpeed kpScenario (9/10) (9/10) 0 = false := by
  refine ⟨?_, ?_, ?_⟩ <;>
    norm_num [isValidSpeed, kpScenario, ctorKinematicParameters, abs_of_nonneg]

/-- Claim C5: a bound holding the negative "disabled" sentinel is never
the cause of rejection: with `max_speed_xy_ < 0` the predicate agrees
with the predicate without the upper-bound check, and with
`min_speed_xy_ < 0` or `min_speed_theta_ < 0` it agrees with the
predicate without the floor check. -/
theorem disabled_bound_never_rejects (p : KinematicParameters) (x y theta : ℚ) :
    (p.max_speed_xy_ < 0 →
      isValidSpeed p x y theta = isValidSpeedNoMaxCheck p x y theta) ∧
    (p.min_speed_xy_ < 0 →
      isValidSpeed p x y theta = isValidSpeedNoMinCheck p x y theta) ∧
    (p.min_speed_theta_ < 0 →
      isValidSpeed p x y theta = isValidSpeedNoMinCheck p x y theta) := by
  refine ⟨?_, ?_, ?_⟩ <;> intro h <;>
    have hne := not_le.mpr h <;>
    simp only [isValidSpeed, isValidSpeedNoMaxCheck, isValidSpeedNoMinCheck] <;>
    split_ifs <;> first | rfl | tauto

/-- Claim C5, witness: each disabled bound leaves the predicate equal to
the corresponding reduced predicate on a concrete input. -/
theorem disabled_bound_never_rejects_witness :
    isValidSpeed kpDisabledMax 2 0 0 = isValidSpeedNoMaxCheck kpDisabledMax 2 0 0 ∧
    isValidSpeed kpDisabledMin (1/20) 0 0 =
      isValidSpeedNoMinCheck kpDisabledMin (1/20) 0 0 ∧
    isValidSpeed kpDisabledMinTheta (1/20) 0 0 =
      isValidSpeedNoMinCheck kpDisabledMinTheta (1/20) 0 0 :=
  ⟨(disabled_bound_never_rejects kpDisabledMax 2 0 0).1
      (by norm_num [kpDisabledMax, kpScenario, ctorKinematicParameters]),
   (disabled_bound_never_rejects kpDisabledMin (1/20) 0 0).2.1
      (by norm_num [kpDisabledMin, kpScenario, ctorKinematicParameters]),
   (disabled_bound_never_rejects kpDisabledMinTheta (1/20) 0 0).2.2
      (by norm_num [kpDisabledMinTheta, kpScenario, ctorKinematicParameters])⟩

/-- Claim C10: the result of `isValidSpeed` depends only on
`max_speed_xy_`, `max_speed_xy_sq_`, `min_speed_xy_`, `min_speed_xy_sq_`
and `min_speed_theta_`: two states agreeing on these five fields give the
same result on every input. -/
theorem depends_only_on_speed_fields (p q : KinematicParameters)
    (x y theta : ℚ)
    (h1 : p.max_speed_xy_ = q.max_speed_xy_)
    (h2 : p.max_speed_xy_sq_ = q.max_speed_xy_sq_)
    (h3 : p.min_speed_xy_ = q.min_speed_xy_)
    (h4 : p.min_speed_xy_sq_ = q.min_speed_xy_sq_)
    (h5 : p.min_speed_theta_ = q.min_speed_theta_) :
    isValidSpeed p x y theta = isValidSpeed q x y theta := by
  unfold isValidSpeed
  rw [h1, h2, h3, h4, h5]

/-- Claim C10, witness: the scenario state and a state differing from it
in every per-axis velocity and acceleration/deceleration limit agree on
the input `(1, 0, 0)`. -/
theorem depends_only_on_speed_fields_witness :
    isValidSpeed kpScenario 1 0 0 = isValidSpeed kpScenarioOtherFields 1 0 0 :=
  depends_only_on_speed_fields kpScenario kpScenarioOtherFields 1 0 0
    rfl rfl rfl rfl rfl

/-- Claim C6: immediately after any run of `reconfigureCB`, and also
immediately after construction, `min_speed_xy_sq_` equals
`min_speed_xy_ * min_speed_xy_` and `max_speed_xy_sq_` equals
`max_speed_xy_ * max_speed_xy_` exactly; the state between updates is
fixed, so no query can observe an inconsistent cache. -/
theorem sq_caches_consistent (b : ParamBatch) :
    ((reconfigureCB b).min_speed_xy_sq_ =
        (reconfigureCB b).min_speed_xy_ * (reconfigureCB b).min_speed_xy_ ∧
      (reconfigureCB b).max_speed_xy_sq_ =
        (reconfigureCB b).max_speed_xy_ * (reconfigureCB b).max_speed_xy_) ∧
    (ctorKinematicParameters.min_speed_xy_sq_ =
        ctorKinematicParameters.min_speed_xy_ * ctorKinematicParameters.min_speed_xy_ ∧
      ctorKinematicParameters.max_speed_xy_sq_ =
        ctorKinematicParameters.max_speed_xy_ * ctorKinematicParameters.max_speed_xy_) := by
  refine ⟨⟨rfl, rfl⟩, ?_, ?_⟩ <;> norm_num [ctorKinematicParameters]

/-- Claim C8: at initialization, for each axis, an unset deceleration
limit next to a set acceleration limit defaults to the negated
acceleration limit, and a set deceleration limit is left unchanged;
`reconfigureCB` never applies this defaulting: it sets each deceleration
field from the event's own entry (default `0.0`) regardless of the
acceleration entries. -/
theorem decel_defaulting (s : ParamStore) (b : ParamBatch) (a v : ℚ) :
    ((s.decel_lim_x = none → s.acc_lim_x = some a →
        (initializeStore s).decel_lim_x = some (-a)) ∧
      (s.decel_lim_x = some v → (initializeStore s).decel_lim_x = some v)) ∧
    ((s.decel_lim_y = none → s.acc_lim_y = some a →
        (initializeStore s).decel_lim_y = some (-a)) ∧
      (s.decel_lim_y = some v → (initializeStore s).decel_lim_y = some v)) ∧
    ((s.decel_lim_theta = none → s.acc_lim_theta = some a →
        (initializeStore s).decel_lim_theta = some (-a)) ∧
      (s.decel_lim_theta = some v → (initializeStore s).decel_lim_theta = some v)) ∧
    ((reconfigureCB b).decel_lim_x_ = getEventParamOr b.decel_lim_x 0 ∧
      (reconfigureCB b).decel_lim_y_ = getEventParamOr b.decel_lim_y 0 ∧
      (reconfigureCB b).decel_lim_theta_ = getEventParamOr b.decel_lim_theta 0) := by
  refine ⟨⟨?_, ?_⟩, ⟨?_, ?_⟩, ⟨?_, ?_⟩, rfl, rfl, rfl⟩
  · intro hd ha
    simp [initializeStore, setDecelerationAsNeeded, hd, ha]
  · intro hd
    simp [initializeStore, setDecelerationAsNeeded, hd]
  · intro hd ha
    simp [initializeStore, setDecelerationAsNeeded, hd, ha]
  · intro hd
    simp [initializeStore, setDecelerationAsNeeded, hd]
  · intro hd ha
    simp [initializeStore, setDecelerationAsNeeded, hd, ha]
  · intro hd
    simp [initializeStore, setDecelerationAsNeeded, hd]

/-- Claim C8, witness: with `acc_lim_x = 2` and no `decel_lim_x`, after
initialization `decel_lim_x = -2`; the configured `decel_lim_y = -5` is
kept; `acc_lim_theta = 1` alone yields `decel_lim_theta = -1`; and an
update event sets the deceleration field from its own entry. -/
theorem decel_defaulting_witness :
    (initializeStore psInit).decel_lim_x = some (-2) ∧
    (initializeStore psInit).decel_lim_y = some (-5) ∧
    (initializeStore psInit).decel_lim_theta = some (-1) ∧
    (reconfigureCB batchAccOnly).decel_lim_x_ =
      getEventParamOr batchAccOnly.decel_lim_x 0 :=
  ⟨(decel_defaulting psInit batchAccOnly 2 0).1.1 rfl rfl,
   (decel_defaulting psInit batchAccOnly 2 (-5)).2.1.2 rfl,
   (decel_defaulting psInit batchAccOnly 1 0).2.2.1.1 rfl rfl,
   (decel_defaulting psInit batchAccOnly 1 0).2.2.2.1⟩

/-- Claim C9: in the default-constructed state (every field `0.0`, so
each enabled-guard `>= 0.0` is satisfied by `0.0`), a command is accepted
iff its squared planar speed is exactly zero and its rotation is nonzero:
only pure rotations pass before configuration is loaded. -/
theorem default_state_accepts_iff (x y theta : ℚ) :
    isValidSpeed ctorKinematicParameters x y theta = true ↔
      x * x + y * y = 0 ∧ theta ≠ 0 := by
  have hv : 0 ≤ x * x + y * y := add_nonneg (mul_self_nonneg x) (mul_self_nonneg y)
  simp only [isValidSpeed, ctorKinematicParameters]
  split_ifs with h1 h2 h3
  · exact iff_of_false (by simp)
      fun hc => absurd (hc.1 ▸ h1.2) (lt_irrefl 0)
  · exact absurd h2.2.1 (not_lt.mpr hv)
  · exact iff_of_false (by simp) fun hc => hc.2 h3.2
  · have hng : ¬ (0 : ℚ) < x * x + y * y := fun hgt => h1 ⟨le_refl 0, hgt⟩
    have hzero : x * x + y * y = 0 := le_antisymm (not_lt.mp hng) hv
    exact iff_of_true rfl ⟨hzero, fun ht => h3 ⟨hzero, ht⟩⟩

/-- Claim C4, counterexample: with `x = NaN` the NaN propagates into
`vmag_sq`, every comparison involving it is false, so no rejection check
fires and the predicate returns true — not false as claimed. -/
theorem nan_rejection_counterexample :
    isValidSpeedD kpScenario DVal.nan (DVal.fin 0) (DVal.fin 0) = true := by
  norm_num [isValidSpeedD, kpScenario, ctorKinematicParameters, DVal.mul, DVal.add,
    DVal.gtb, DVal.ltb, DVal.eqb, DVal.fabs]

/-- Claim C4, amended: the predicate is total (no exception or panic),
and NaN propagates through the comparisons making each comparison false;
hence a NaN never causes a rejection check to fire: with `x` or `y` NaN
the predicate returns true in every state, and with only `theta` NaN the
result is decided by the max-speed check alone. -/
theorem nan_propagation (p : KinematicParameters) (x y theta : DVal) (a b : ℚ) :
    ((x = DVal.nan ∨ y = DVal.nan) → isValidSpeedD p x y theta = true) ∧
    isValidSpeedD p (DVal.fin a) (DVal.fin b) DVal.nan =
      !(decide (p.max_speed_xy_ ≥ 0) &&
        decide (p.max_speed_xy_sq_ < a * a + b * b)) := by
  constructor
  · rintro (h | h) <;> subst h
    · cases y <;> cases theta <;>
        simp [isValidSpeedD, DVal.mul, DVal.add, DVal.gtb, DVal.ltb, DVal.eqb, DVal.fabs]
    · cases x <;> cases theta <;>
        simp [isValidSpeedD, DVal.mul, DVal.add, DVal.gtb, DVal.ltb, DVal.eqb, DVal.fabs]
  · simp only [isValidSpeedD, DVal.mul, DVal.add, DVal.gtb, DVal.ltb, DVal.eqb, DVal.fabs]
    cases hc : decide (p.max_speed_xy_ ≥ 0) &&
        decide (p.max_speed_xy_sq_ < a * a + b * b) <;>
      simp [hc]

/-- Claim C9, witness: in the default-constructed state the pure
rotation `(0, 0, 1)` is accepted. -/
theorem default_state_accepts_iff_witness :
    isValidSpeed ctorKinematicParameters 0 0 1 = true :=
  (default_state_accepts_iff 0 0 1).mpr ⟨by norm_num, one_ne_zero⟩

/-- Claim C4, witness for the amended statement: in the
default-constructed state the input `(NaN, 1, 1)` is accepted. -/
theorem nan_propagation_witness :
    isValidSpeedD ctorKinematicParameters DVal.nan (DVal.fin 1) (DVal.fin 1) = true :=
  (nan_propagation ctorKinematicParameters DVal.nan (DVal.fin 1) (DVal.fin 1) 1 0).1
    (Or.inl rfl)

end DwbPlugins
